import Mathlib

/-
  Verification of the TimeLoggingIterator wrapper from
  src/api/python/cellxgene_census/src/cellxgene_census/experimental/util/_time_logging_iter.py

  The wrapper decorates an upstream Python iterator: every time the caller
  requests the next element, the wrapper samples a start timestamp, delegates
  to the upstream iterator, and on success samples an end timestamp, rounds
  the elapsed time to 3 decimal places, increments its item counter, emits a
  warning-level log message, and returns the element unchanged.  On
  StopIteration it re-raises; any other exception propagates unhandled.

  Shallow embedding choices:
  - the upstream iterator is modelled as an object with an identity tag
    (field ref) and an internal state: the scripted list of results its
    future next() calls will produce (yield a value, raise StopIteration,
    or raise an error).  An empty script means the iterator is exhausted and
    every subsequent next() raises StopIteration;
  - wall-clock samples (time.time()) are inputs: each call to next receives
    the start and end timestamps as rationals;
  - python round(x, 3) is modelled on the rationals with round-half-to-even
    tie breaking, as python uses;
  - the logging destination is modelled by its identity tag; the records a
    call emits are returned alongside the result.  A record keeps the three
    interpolated values of the f-string (name, elapsed, item number) and its
    severity; the rendered message string is derived from them exactly as
    the f-string renders, with python float formatting of the elapsed value.
-/

namespace TimeLog

/-- Severity levels of the logging destination; the wrapper only ever uses
the warning level. -/
inductive LogLevel : Type where
  | debug : LogLevel
  | info : LogLevel
  | warning : LogLevel
  | errorLevel : LogLevel
deriving DecidableEq, Repr

/-- One result of a call to the upstream next(): a value, StopIteration, or
some other raised error (of type E). -/
inductive UpResult (T E : Type) : Type where
  | yield : T → UpResult T E
  | stopIteration : UpResult T E
  | error : E → UpResult T E
deriving DecidableEq, Repr

/-- The upstream iterator object: an identity tag (the python reference,
never reassigned by the wrapper) together with its internal state, the
scripted results of its future next() calls.  An empty script is an
exhausted iterator: every further next() raises StopIteration. -/
structure IteratorObj (T E : Type) : Type where
  ref : Nat
  state : List (UpResult T E)
deriving DecidableEq, Repr

/-- A log record: the severity and the three values interpolated into the
message f-string of TimeLoggingIterator.next. -/
structure LogRecord : Type where
  level : LogLevel
  name : String
  elapsed : ℚ
  item_number : Nat
deriving DecidableEq, Repr

/-- Python round-half-to-even of a rational to an integer, as python round
does on exact values. -/
def pyRound (q : ℚ) : ℤ :=
  let f : ℤ := ⌊q⌋
  let r : ℚ := q - f
  if r < 1/2 then f
  else if 1/2 < r then f + 1
  else if f % 2 = 0 then f else f + 1

/-- round(x, 3): round to 3 decimal places. -/
def round3 (q : ℚ) : ℚ := (pyRound (q * 1000) : ℚ) / 1000

/-- Drop trailing zero characters. -/
def stripTrailingZeros (s : List Char) : List Char :=
  (s.reverse.dropWhile (fun c => c = '0')).reverse

/-- Render a rational holding an integer number of thousandths the way
python str() renders the corresponding float: integer part, a dot, then the
fractional digits with trailing zeros removed but at least one digit kept
(so 0 renders as 0.0 and 123/1000 as 0.123). -/
def formatElapsed (q : ℚ) : String :=
  let m : ℤ := ⌊q * 1000⌋
  let sign : String := if m < 0 then "-" else ""
  let a : Nat := m.natAbs
  let intPart : Nat := a / 1000
  let fracPart : Nat := a % 1000
  let digits : List Char := Nat.toDigits 10 fracPart
  let padded : List Char := List.replicate (3 - digits.length) '0' ++ digits
  let frac : List Char := stripTrailingZeros padded
  let fracStr : String := if frac.isEmpty then "0" else String.mk frac
  sign ++ toString intPart ++ "." ++ fracStr

/-- The message string rendered by the f-string in
TimeLoggingIterator.next from the interpolated values of a record. -/
def LogRecord.message (r : LogRecord) : String :=
  r.name ++ " iterator: " ++ formatElapsed r.elapsed ++ "s for item #" ++ toString r.item_number

/-- State of a TimeLoggingIterator instance.  Fields in the order the
constructor assigns them: the upstream iterator object, the display name,
the identity tag of the logging destination, and the item counter. -/
structure TimeLoggingIterator (T E : Type) : Type where
  iterator : IteratorObj T E
  name : String
  logger : Nat
  item_number : Nat
deriving DecidableEq, Repr

/-- TimeLoggingIterator.init(logger, iterator, name): stores the three
arguments and starts the item counter at 0.  No other validation. -/
def TimeLoggingIterator.init {T E : Type} (logger : Nat) (iterator : IteratorObj T E)
    (name : String) : TimeLoggingIterator T E :=
  { iterator := iterator, name := name, logger := logger, item_number := 0 }

/-- Python calling convention for the constructor: all three parameters are
required, so a call with an absent argument is rejected (TypeError) before
the body runs; with all three present the body stores them unchecked. -/
def construct {T E : Type} (logger : Option Nat) (iterator : Option (IteratorObj T E))
    (name : Option String) : Option (TimeLoggingIterator T E) :=
  match logger, iterator, name with
  | some l, some it, some n => some (TimeLoggingIterator.init l it n)
  | _, _, _ => none

/-- Outcome of one call to the wrapper next(): return a value, raise
StopIteration, or propagate an upstream error. -/
inductive NextOutcome (T E : Type) : Type where
  | value : T → NextOutcome T E
  | stopIteration : NextOutcome T E
  | error : E → NextOutcome T E
deriving DecidableEq, Repr

/-- TimeLoggingIterator.next, one call.  start_time and end_time are
the two wall-clock samples (end_time is only used on the success path, as
in the source it is only sampled there).  Returns the outcome, the updated
wrapper state, and the log records emitted during the call.

Source body:
  start_time = time.time()
  try:  value = next(self.iterator)
  except StopIteration:  raise
  else:
    end_time = time.time()
    elapsed_time = round(end_time - start_time, 3)
    self.item_number += 1
    self.logger.warning(f"\x7bself.name\x7d iterator: \x7belapsed_time\x7ds for item #\x7bself.item_number\x7d")
    return value
-/
def TimeLoggingIterator.next {T E : Type} (st : TimeLoggingIterator T E)
    (start_time end_time : ℚ) :
    NextOutcome T E × TimeLoggingIterator T E × List LogRecord :=
  match st.iterator.state with
  | [] =>
      (NextOutcome.stopIteration, st, [])
  | UpResult.stopIteration :: rest =>
      (NextOutcome.stopIteration,
       { st with iterator := { st.iterator with state := rest } }, [])
  | UpResult.error e :: rest =>
      (NextOutcome.error e,
       { st with iterator := { st.iterator with state := rest } }, [])
  | UpResult.yield v :: rest =>
      let elapsed_time : ℚ := round3 (end_time - start_time)
      let n : Nat := st.item_number + 1
      (NextOutcome.value v,
       { st with iterator := { st.iterator with state := rest }, item_number := n },
       [{ level := LogLevel.warning, name := st.name, elapsed := elapsed_time,
          item_number := n }])

/-- TimeLoggingIterator.iter returns self, unchanged. -/
def TimeLoggingIterator.iter {T E : Type} (st : TimeLoggingIterator T E) :
    TimeLoggingIterator T E := st

/-- How a full drain of the wrapper ended: upstream exhaustion, or an
upstream error that propagated to the caller. -/
inductive DrainEnd (E : Type) : Type where
  | exhausted : DrainEnd E
  | errored : E → DrainEnd E
deriving DecidableEq, Repr

/-- The observables of fully draining the wrapper: the elements returned to
the caller in order, the log records emitted in order, the final wrapper
state, and how the drain ended. -/
structure DrainOut (T E : Type) : Type where
  values : List T
  logs : List LogRecord
  final : TimeLoggingIterator T E
  outcome : DrainEnd E
deriving DecidableEq, Repr

/-- Repeatedly call next, call i receiving the timestamps clock i, until
StopIteration or an error, for at most fuel calls.  drain instantiates fuel
with the length of the remaining upstream script, which bounds the number
of calls that can do anything: once the script is empty every further call
returns StopIteration with no state change and no log, so stopping there
loses no observable. -/
def drainN {T E : Type} : Nat → TimeLoggingIterator T E → (Nat → ℚ × ℚ) → DrainOut T E
  | 0, st, _ => ⟨[], [], st, DrainEnd.exhausted⟩
  | fuel + 1, st, clock =>
    match TimeLoggingIterator.next st (clock 0).1 (clock 0).2 with
    | (NextOutcome.value v, st2, logs) =>
        let r := drainN fuel st2 (fun k => clock (k + 1))
        ⟨v :: r.values, logs ++ r.logs, r.final, r.outcome⟩
    | (NextOutcome.stopIteration, st2, logs) => ⟨[], logs, st2, DrainEnd.exhausted⟩
    | (NextOutcome.error e, st2, logs) => ⟨[], logs, st2, DrainEnd.errored e⟩

/-- Fully drain the wrapper: pull elements until upstream exhaustion or an
upstream error, the i-th call to next receiving the timestamps clock i. -/
def drain {T E : Type} (st : TimeLoggingIterator T E) (clock : Nat → ℚ × ℚ) :
    DrainOut T E :=
  drainN st.iterator.state.length st clock

/-- 1 if the outcome of a call is a returned value, 0 otherwise. -/
def yielded {T E : Type} : NextOutcome T E → Nat
  | NextOutcome.value _ => 1
  | NextOutcome.stopIteration => 0
  | NextOutcome.error _ => 0

/-- The log records a drain of n yielding elements emits, starting with the
item counter at k, call i receiving the timestamps clock i: one warning
record per element, counters k+1, k+2, ... -/
def expectedLogs (name : String) (clock : Nat → ℚ × ℚ) (k : Nat) : Nat → List LogRecord
  | 0 => []
  | n + 1 =>
      { level := LogLevel.warning, name := name,
        elapsed := round3 ((clock 0).2 - (clock 0).1), item_number := k + 1 }
        :: expectedLogs name (fun i => clock (i + 1)) (k + 1) n

section Lemmas

variable {T E : Type}

theorem next_of_nil (st : TimeLoggingIterator T E) (a b : ℚ)
    (h : st.iterator.state = []) :
    st.next a b = (NextOutcome.stopIteration, st, []) := by
  simp [TimeLoggingIterator.next, h]

theorem next_of_stop (st : TimeLoggingIterator T E) (a b : ℚ)
    (rest : List (UpResult T E)) (h : st.iterator.state = UpResult.stopIteration :: rest) :
    st.next a b = (NextOutcome.stopIteration,
      { st with iterator := { st.iterator with state := rest } }, []) := by
  simp [TimeLoggingIterator.next, h]

theorem next_of_error (st : TimeLoggingIterator T E) (a b : ℚ) (e : E)
    (rest : List (UpResult T E)) (h : st.iterator.state = UpResult.error e :: rest) :
    st.next a b = (NextOutcome.error e,
      { st with iterator := { st.iterator with state := rest } }, []) := by
  simp [TimeLoggingIterator.next, h]

theorem next_of_yield (st : TimeLoggingIterator T E) (a b : ℚ) (v : T)
    (rest : List (UpResult T E)) (h : st.iterator.state = UpResult.yield v :: rest) :
    st.next a b = (NextOutcome.value v,
      { st with iterator := { st.iterator with state := rest },
                item_number := st.item_number + 1 },
      [{ level := LogLevel.warning, name := st.name, elapsed := round3 (b - a),
         item_number := st.item_number + 1 }]) := by
  simp [TimeLoggingIterator.next, h]

theorem expectedLogs_length (name : String) (clock : Nat → ℚ × ℚ) (k n : Nat) :
    (expectedLogs name clock k n).length = n := by
  induction n generalizing clock k with
  | zero => rfl
  | succ n ih => simp [expectedLogs, ih]

theorem expectedLogs_item_numbers (name : String) (clock : Nat → ℚ × ℚ) (k n : Nat) :
    (expectedLogs name clock k n).map LogRecord.item_number = List.range' (k + 1) n := by
  induction n generalizing clock k with
  | zero => rfl
  | succ n ih => simp [expectedLogs, List.range'_succ, ih]

theorem expectedLogs_levels (name : String) (clock : Nat → ℚ × ℚ) (k n : Nat) :
    (expectedLogs name clock k n).map LogRecord.level = List.replicate n LogLevel.warning := by
  induction n generalizing clock k with
  | zero => rfl
  | succ n ih => simp [expectedLogs, List.replicate_succ, ih]

theorem next_yield_lit (ref : Nat) (name : String) (logger k : Nat) (a b : ℚ)
    (v : T) (rest : List (UpResult T E)) :
    (⟨⟨ref, UpResult.yield v :: rest⟩, name, logger, k⟩ :
        TimeLoggingIterator T E).next a b =
      (NextOutcome.value v, ⟨⟨ref, rest⟩, name, logger, k + 1⟩,
       [⟨LogLevel.warning, name, round3 (b - a), k + 1⟩]) := rfl

theorem next_stop_lit (ref : Nat) (name : String) (logger k : Nat) (a b : ℚ)
    (rest : List (UpResult T E)) :
    (⟨⟨ref, UpResult.stopIteration :: rest⟩, name, logger, k⟩ :
        TimeLoggingIterator T E).next a b =
      (NextOutcome.stopIteration, ⟨⟨ref, rest⟩, name, logger, k⟩, []) := rfl

theorem next_error_lit (ref : Nat) (name : String) (logger k : Nat) (a b : ℚ)
    (e : E) (rest : List (UpResult T E)) :
    (⟨⟨ref, UpResult.error e :: rest⟩, name, logger, k⟩ :
        TimeLoggingIterator T E).next a b =
      (NextOutcome.error e, ⟨⟨ref, rest⟩, name, logger, k⟩, []) := rfl

/-- Master lemma: draining a script that starts with a block of yields
returns that block followed by whatever draining the remainder of the
script gives, emits the expected warning record per yielded element, and
advances the counter once per element. -/
theorem drainN_yield_prefix (elems : List T) (rest : List (UpResult T E))
    (ref : Nat) (name : String) (logger : Nat) (k : Nat) (clock : Nat → ℚ × ℚ) :
    drainN (elems.length + rest.length)
        ⟨⟨ref, elems.map UpResult.yield ++ rest⟩, name, logger, k⟩ clock =
      { values := elems ++ (drainN rest.length ⟨⟨ref, rest⟩, name, logger, k + elems.length⟩
              (fun i => clock (i + elems.length))).values,
        logs := expectedLogs name clock k elems.length ++
            (drainN rest.length ⟨⟨ref, rest⟩, name, logger, k + elems.length⟩
              (fun i => clock (i + elems.length))).logs,
        final := (drainN rest.length ⟨⟨ref, rest⟩, name, logger, k + elems.length⟩
              (fun i => clock (i + elems.length))).final,
        outcome := (drainN rest.length ⟨⟨ref, rest⟩, name, logger, k + elems.length⟩
              (fun i => clock (i + elems.length))).outcome } := by
  induction elems generalizing k clock with
  | nil => simp [expectedLogs]
  | cons v es ih =>
      have hlen : (v :: es).length + rest.length = (es.length + rest.length) + 1 := by
        simp only [List.length_cons]; omega
      rw [hlen]
      simp only [List.map_cons, List.cons_append, drainN, next_yield_lit]
      rw [ih (k + 1) (fun j => clock (j + 1))]
      have hk : k + 1 + es.length = k + (v :: es).length := by
        simp only [List.length_cons]; omega
      have hclock : (fun i => clock (i + es.length + 1)) =
          (fun i => clock (i + (v :: es).length)) := by
        funext i
        simp only [List.length_cons]
        congr 1
      rw [hk, hclock]
      simp [expectedLogs]

theorem pyRound_nonneg (q : ℚ) (hq : 0 ≤ q) : 0 ≤ pyRound q := by
  have hf : (0:ℤ) ≤ ⌊q⌋ := Int.floor_nonneg.mpr hq
  unfold pyRound
  dsimp only
  split
  · exact hf
  · split
    · omega
    · split <;> omega

theorem round3_nonneg (q : ℚ) (hq : 0 ≤ q) : 0 ≤ round3 q := by
  unfold round3
  have h1 : (0:ℚ) ≤ q * 1000 := by positivity
  have h2 : (0:ℤ) ≤ pyRound (q * 1000) := pyRound_nonneg _ h1
  have h3 : (0:ℚ) ≤ (pyRound (q * 1000) : ℚ) := by exact_mod_cast h2
  positivity

theorem pyRound_zero : pyRound 0 = 0 := by
  unfold pyRound
  norm_num

theorem round3_zero : round3 0 = 0 := by
  unfold round3
  norm_num [pyRound_zero]

theorem formatElapsed_zero : formatElapsed 0 = "0.0" := by
  unfold formatElapsed
  have h : ⌊(0:ℚ) * 1000⌋ = 0 := by norm_num
  rw [h]
  rfl

/-- Draining a wrapper over a script of pure yields returns all the
elements, the expected logs, and ends exhausted with the counter at the
element count. -/
theorem drain_yields (elems : List T) (logger ref : Nat) (nm : String)
    (clock : Nat → ℚ × ℚ) :
    drain (TimeLoggingIterator.init (E := E) logger ⟨ref, elems.map UpResult.yield⟩ nm) clock =
      ⟨elems, expectedLogs nm clock 0 elems.length,
       ⟨⟨ref, []⟩, nm, logger, elems.length⟩, DrainEnd.exhausted⟩ := by
  have h := drainN_yield_prefix (E := E) elems [] ref nm logger 0 clock
  simp only [List.length_nil, Nat.add_zero, List.append_nil, drainN, Nat.zero_add] at h
  simpa [drain, TimeLoggingIterator.init] using h

theorem drainN_error_lit (fuel : Nat) (ref : Nat) (nm : String) (logger k : Nat)
    (e : E) (tailS : List (UpResult T E)) (clock : Nat → ℚ × ℚ) :
    drainN (fuel + 1) ⟨⟨ref, UpResult.error e :: tailS⟩, nm, logger, k⟩ clock =
      ⟨[], [], ⟨⟨ref, tailS⟩, nm, logger, k⟩, DrainEnd.errored e⟩ := by
  simp [drainN, next_error_lit]

/-- Draining a wrapper whose script yields some elements and then raises a
non-StopIteration error returns the prefix of elements with their logs and
ends with the error propagated; the failed attempt neither logs nor bumps
the counter. -/
theorem drain_error_after (elems : List T) (e : E) (tailS : List (UpResult T E))
    (logger ref : Nat) (nm : String) (clock : Nat → ℚ × ℚ) :
    drain (TimeLoggingIterator.init logger
        ⟨ref, elems.map UpResult.yield ++ UpResult.error e :: tailS⟩ nm) clock =
      ⟨elems, expectedLogs nm clock 0 elems.length,
       ⟨⟨ref, tailS⟩, nm, logger, elems.length⟩, DrainEnd.errored e⟩ := by
  have h := drainN_yield_prefix (E := E) elems (UpResult.error e :: tailS) ref nm logger 0 clock
  rw [List.length_cons] at h
  rw [drainN_error_lit] at h
  simpa [drain, TimeLoggingIterator.init] using h

/-- Each call to next emits exactly one record when it returns a value and
none otherwise. -/
theorem next_log_count (st : TimeLoggingIterator T E) (a b : ℚ) :
    ((st.next a b).2.2).length = yielded (st.next a b).1 := by
  rcases hs : st.iterator.state with _ | ⟨head, rest⟩
  · simp [next_of_nil st a b hs, yielded]
  · cases head with
    | yield v => simp [next_of_yield st a b v rest hs, yielded]
    | stopIteration => simp [next_of_stop st a b rest hs, yielded]
    | error e => simp [next_of_error st a b e rest hs, yielded]

/-- The counter moves by exactly the number of values a call returns. -/
theorem next_item_number (st : TimeLoggingIterator T E) (a b : ℚ) :
    (st.next a b).2.1.item_number = st.item_number + yielded (st.next a b).1 := by
  rcases hs : st.iterator.state with _ | ⟨head, rest⟩
  · simp [next_of_nil st a b hs, yielded]
  · cases head with
    | yield v => simp [next_of_yield st a b v rest hs, yielded]
    | stopIteration => simp [next_of_stop st a b rest hs, yielded]
    | error e => simp [next_of_error st a b e rest hs, yielded]

/-- Across any drain the final counter is the initial counter plus the
number of elements yielded. -/
theorem drainN_item_number (fuel : Nat) (st : TimeLoggingIterator T E)
    (clock : Nat → ℚ × ℚ) :
    (drainN fuel st clock).final.item_number =
      st.item_number + (drainN fuel st clock).values.length := by
  induction fuel generalizing st clock with
  | zero => simp [drainN]
  | succ n ih =>
      rcases hs : st.iterator.state with _ | ⟨head, rest⟩
      · simp [drainN, next_of_nil st _ _ hs]
      · cases head with
        | yield v =>
            simp only [drainN, next_of_yield st _ _ v rest hs]
            simp [ih]
            omega
        | stopIteration => simp [drainN, next_of_stop st _ _ rest hs]
        | error e => simp [drainN, next_of_error st _ _ e rest hs]

end Lemmas

section Claims

variable {T E : Type}

/-- C1: fully draining the TimeLoggingIterator wrapping a finite upstream
iterator of N elements yields exactly the same N elements, in the same
order and unchanged, as draining the unwrapped source. -/
theorem C1_elements_preserved (elems : List T) (logger ref : Nat) (nm : String)
    (clock : Nat → ℚ × ℚ) :
    (drain (TimeLoggingIterator.init (E := E) logger ⟨ref, elems.map UpResult.yield⟩ nm)
        clock).values = elems := by
  simp [drain_yields]

/-- C2: draining a wrapper over N elements emits exactly N log records, one
per successful retrieval in retrieval order (record i is built from the
clock samples of call i), with position counters 1, 2, ..., N; and any one
call emits exactly one record when it returns a value and none otherwise. -/
theorem C2_log_emissions (elems : List T) (logger ref : Nat) (nm : String)
    (clock : Nat → ℚ × ℚ) :
    (drain (TimeLoggingIterator.init (E := E) logger ⟨ref, elems.map UpResult.yield⟩ nm)
        clock).logs = expectedLogs nm clock 0 elems.length ∧
    (drain (TimeLoggingIterator.init (E := E) logger ⟨ref, elems.map UpResult.yield⟩ nm)
        clock).logs.length = elems.length ∧
    (drain (TimeLoggingIterator.init (E := E) logger ⟨ref, elems.map UpResult.yield⟩ nm)
        clock).logs.map LogRecord.item_number = List.range' 1 elems.length ∧
    ∀ (st : TimeLoggingIterator T E) (a b : ℚ),
      ((st.next a b).2.2).length = yielded (st.next a b).1 := by
  refine ⟨?_, ?_, ?_, fun st a b => next_log_count st a b⟩ <;>
    simp [drain_yields, expectedLogs_length, expectedLogs_item_numbers]

/-- C3: when the upstream signals exhaustion, next propagates StopIteration
to the caller, emits no record and leaves the counter unchanged; a wrapper
over an already-exhausted source emits nothing and signals exhaustion on
the first retrieval attempt. -/
theorem C3_exhaustion_propagation (st : TimeLoggingIterator T E) (a b : ℚ)
    (h : st.iterator.state = [] ∨
      st.iterator.state.head? = some UpResult.stopIteration) :
    (st.next a b).1 = NextOutcome.stopIteration ∧
    (st.next a b).2.2 = [] ∧
    (st.next a b).2.1.item_number = st.item_number ∧
    ∀ (logger ref : Nat) (nm : String) (clock : Nat → ℚ × ℚ),
      drain (TimeLoggingIterator.init (T := T) (E := E) logger ⟨ref, []⟩ nm) clock =
        ⟨[], [], TimeLoggingIterator.init logger ⟨ref, []⟩ nm, DrainEnd.exhausted⟩ ∧
      ((TimeLoggingIterator.init (T := T) (E := E) logger ⟨ref, []⟩ nm).next a b).1 =
        NextOutcome.stopIteration := by
  have hmain : (st.next a b).1 = NextOutcome.stopIteration ∧ (st.next a b).2.2 = [] ∧
      (st.next a b).2.1.item_number = st.item_number := by
    rcases h with h | h
    · simp [next_of_nil st a b h]
    · rcases hs : st.iterator.state with _ | ⟨head, rest⟩
      · simp [next_of_nil st a b hs]
      · rw [hs, List.head?_cons] at h
        injection h with h
        subst h
        simp [next_of_stop st a b rest hs]
  exact ⟨hmain.1, hmain.2.1, hmain.2.2, fun logger ref nm clock => ⟨rfl, rfl⟩⟩

/-- Witness for C3 at a concrete already-exhausted wrapper whose counter
sits at 5. -/
theorem C3_witness :
    ((⟨⟨0, []⟩, "n", 0, 5⟩ : TimeLoggingIterator String String).next 0 0).1 =
        NextOutcome.stopIteration ∧
      ((⟨⟨0, []⟩, "n", 0, 5⟩ : TimeLoggingIterator String String).next 0 0).2.2 = [] ∧
      ((⟨⟨0, []⟩, "n", 0, 5⟩ : TimeLoggingIterator String String).next 0 0).2.1.item_number =
        (⟨⟨0, []⟩, "n", 0, 5⟩ : TimeLoggingIterator String String).item_number ∧
      ∀ (logger ref : Nat) (nm : String) (clock : Nat → ℚ × ℚ),
        drain (TimeLoggingIterator.init (T := String) (E := String) logger ⟨ref, []⟩ nm)
            clock =
          ⟨[], [], TimeLoggingIterator.init logger ⟨ref, []⟩ nm, DrainEnd.exhausted⟩ ∧
        ((TimeLoggingIterator.init (T := String) (E := String) logger ⟨ref, []⟩ nm).next
            0 0).1 = NextOutcome.stopIteration :=
  C3_exhaustion_propagation ⟨⟨0, []⟩, "n", 0, 5⟩ 0 0 (Or.inl rfl)

/-- C4: if the upstream raises a non-exhaustion error on the k-th
retrieval, the wrapper has already yielded the first k-1 elements with
exactly k-1 log records, and the k-th attempt propagates the same error
with no record and no counter increment. -/
theorem C4_error_propagation (elems : List T) (e : E) (tailS : List (UpResult T E))
    (logger ref : Nat) (nm : String) (clock : Nat → ℚ × ℚ) :
    (drain (TimeLoggingIterator.init logger
        ⟨ref, elems.map UpResult.yield ++ UpResult.error e :: tailS⟩ nm) clock).values =
      elems ∧
    (drain (TimeLoggingIterator.init logger
        ⟨ref, elems.map UpResult.yield ++ UpResult.error e :: tailS⟩ nm) clock).logs.length =
      elems.length ∧
    (drain (TimeLoggingIterator.init logger
        ⟨ref, elems.map UpResult.yield ++ UpResult.error e :: tailS⟩ nm) clock).outcome =
      DrainEnd.errored e ∧
    (drain (TimeLoggingIterator.init logger
        ⟨ref, elems.map UpResult.yield ++ UpResult.error e :: tailS⟩ nm)
        clock).final.item_number = elems.length := by
  simp [drain_error_after, expectedLogs_length]

/-- C5: the counter starts at 0 at construction, moves by exactly 1 on a
call that returns a value and by 0 on exhaustion or failure, and after any
drain it equals its initial value plus the number of elements yielded. -/
theorem C5_counter_invariant (logger : Nat) (it : IteratorObj T E) (nm : String)
    (st : TimeLoggingIterator T E) (a b : ℚ) (clock : Nat → ℚ × ℚ) :
    (TimeLoggingIterator.init logger it nm).item_number = 0 ∧
    (st.next a b).2.1.item_number = st.item_number + yielded (st.next a b).1 ∧
    (drain st clock).final.item_number = st.item_number + (drain st clock).values.length :=
  ⟨rfl, next_item_number st a b, drainN_item_number _ st clock⟩

/-- C6: a successful call logs exactly one record whose elapsed field is
round3 of end minus start for the two samples of that call, and when the
end sample is not before the start sample that value is nonnegative. -/
theorem C6_elapsed_rounded (st : TimeLoggingIterator T E) (a b : ℚ) (v : T)
    (st2 : TimeLoggingIterator T E) (logs : List LogRecord)
    (hy : st.next a b = (NextOutcome.value v, st2, logs)) (hab : a ≤ b) :
    logs = [⟨LogLevel.warning, st.name, round3 (b - a), st.item_number + 1⟩] ∧
    0 ≤ round3 (b - a) := by
  refine ⟨?_, round3_nonneg _ (sub_nonneg.mpr hab)⟩
  rcases hs : st.iterator.state with _ | ⟨head, rest⟩
  · rw [next_of_nil st a b hs] at hy
    simp at hy
  · cases head with
    | yield w =>
        rw [next_of_yield st a b w rest hs] at hy
        simp only [Prod.mk.injEq, NextOutcome.value.injEq] at hy
        exact hy.2.2.symm
    | stopIteration =>
        rw [next_of_stop st a b rest hs] at hy
        simp at hy
    | error e2 =>
        rw [next_of_error st a b e2 rest hs] at hy
        simp at hy

/-- Witness for C6 at a concrete one-element wrapper with both clock
samples at 0. -/
theorem C6_witness :
    ([(⟨LogLevel.warning, "demo", round3 (0 - 0), 1⟩ : LogRecord)] =
      [(⟨LogLevel.warning, "demo", round3 (0 - 0), 1⟩ : LogRecord)]) ∧
    (0:ℚ) ≤ round3 (0 - 0) :=
  C6_elapsed_rounded (⟨⟨0, [UpResult.yield "x"]⟩, "demo", 0, 0⟩ :
      TimeLoggingIterator String Unit) 0 0 "x" ⟨⟨0, []⟩, "demo", 0, 1⟩
    [⟨LogLevel.warning, "demo", round3 (0 - 0), 1⟩] rfl (le_refl 0)

/-- C7: every record is emitted at warning severity, and the concrete
scenario of a wrapper named demo over ["a", "b", "c"] with zero retrieval
delay returns ["a", "b", "c"] and renders exactly the three expected
messages. -/
theorem C7_demo_scenario :
    (∀ (T2 E2 : Type) (st : TimeLoggingIterator T2 E2) (a b : ℚ),
      ((st.next a b).2.2).map LogRecord.level =
        List.replicate ((st.next a b).2.2).length LogLevel.warning) ∧
    (drain (TimeLoggingIterator.init (E := Unit) 0
        ⟨0, [UpResult.yield "a", UpResult.yield "b", UpResult.yield "c"]⟩ "demo")
        (fun _ => (0, 0))).values = ["a", "b", "c"] ∧
    (drain (TimeLoggingIterator.init (E := Unit) 0
        ⟨0, [UpResult.yield "a", UpResult.yield "b", UpResult.yield "c"]⟩ "demo")
        (fun _ => (0, 0))).logs.map LogRecord.level =
      [LogLevel.warning, LogLevel.warning, LogLevel.warning] ∧
    (drain (TimeLoggingIterator.init (E := Unit) 0
        ⟨0, [UpResult.yield "a", UpResult.yield "b", UpResult.yield "c"]⟩ "demo")
        (fun _ => (0, 0))).logs.map LogRecord.message =
      ["demo iterator: 0.0s for item #1", "demo iterator: 0.0s for item #2",
       "demo iterator: 0.0s for item #3"] := by
  refine ⟨?_, rfl, rfl, ?_⟩
  · intro T2 E2 st a b
    rcases hs : st.iterator.state with _ | ⟨head, rest⟩
    · simp [next_of_nil st a b hs]
    · cases head with
      | yield v => simp [next_of_yield st a b v rest hs]
      | stopIteration => simp [next_of_stop st a b rest hs]
      | error e => simp [next_of_error st a b e rest hs]
  · have hlogs : (drain (TimeLoggingIterator.init (E := Unit) 0
        ⟨0, [UpResult.yield "a", UpResult.yield "b", UpResult.yield "c"]⟩ "demo")
        (fun _ => (0, 0))).logs =
      [⟨LogLevel.warning, "demo", round3 (0 - 0), 1⟩,
       ⟨LogLevel.warning, "demo", round3 (0 - 0), 2⟩,
       ⟨LogLevel.warning, "demo", round3 (0 - 0), 3⟩] := rfl
    have h0 : round3 ((0:ℚ) - 0) = 0 := by rw [sub_zero]; exact round3_zero
    rw [hlogs]
    simp only [List.map_cons, List.map_nil, LogRecord.message, h0, formatElapsed_zero]
    rfl

/-- C8: construction takes a logging destination, an upstream source and a
display name; a call missing any of the three is rejected, present
arguments are stored without further validation with the counter at 0, and
a wrapper over an already-exhausted source simply yields no elements. -/
theorem C8_construction (logger : Nat) (it : IteratorObj T E) (nm : String)
    (l2 ref : Nat) (n2 : String) (clock : Nat → ℚ × ℚ) (a b : ℚ) :
    construct (some logger) (some it) (some nm) =
      some (TimeLoggingIterator.init logger it nm) ∧
    (TimeLoggingIterator.init logger it nm).iterator = it ∧
    (TimeLoggingIterator.init logger it nm).name = nm ∧
    (TimeLoggingIterator.init logger it nm).logger = logger ∧
    (TimeLoggingIterator.init logger it nm).item_number = 0 ∧
    construct (T := T) (E := E) none (some it) (some nm) = none ∧
    construct (some logger) (none : Option (IteratorObj T E)) (some nm) = none ∧
    construct (some logger) (some it) (none : Option String) = none ∧
    (drain (TimeLoggingIterator.init (T := T) (E := E) l2 ⟨ref, []⟩ n2) clock).values =
      [] ∧
    ((TimeLoggingIterator.init (T := T) (E := E) l2 ⟨ref, []⟩ n2).next a b).2.2 = [] :=
  ⟨rfl, rfl, rfl, rfl, rfl, rfl, rfl, rfl, rfl, rfl⟩

/-- C9: requesting an iterator from the wrapper returns the very same
instance with all state unchanged, in particular the counter is not reset,
so further retrievals behave exactly as on the original instance and
numbering continues where it stopped. -/
theorem C9_iter_is_self (st : TimeLoggingIterator T E) :
    st.iter = st ∧ (st.iter).item_number = st.item_number ∧
    ∀ a b : ℚ, (st.iter).next a b = st.next a b :=
  ⟨rfl, rfl, fun _ _ => rfl⟩

/-- C10: a call to next never changes the display name, the logging
destination, or the identity of the upstream iterator object, whatever the
outcome of the call. -/
theorem C10_frame (st : TimeLoggingIterator T E) (a b : ℚ) :
    (st.next a b).2.1.name = st.name ∧
    (st.next a b).2.1.logger = st.logger ∧
    (st.next a b).2.1.iterator.ref = st.iterator.ref := by
  rcases hs : st.iterator.state with _ | ⟨head, rest⟩
  · simp [next_of_nil st a b hs]
  · cases head with
    | yield v => simp [next_of_yield st a b v rest hs]
    | stopIteration => simp [next_of_stop st a b rest hs]
    | error e => simp [next_of_error st a b e rest hs]

end Claims

end TimeLog
